import Mathlib

/-!
Shallow embedding of the `mailin` SMTP protocol engine
(`src/patch/mailin/src/{response,parser,fsm,smtp}.rs`) of the mailhook
repository.  Rust `String`/`&str`/`&[u8]` values are modelled as
`List UInt8` (their UTF-8 bytes); machine integers fit in `Nat` since the
code never overflows them.  Stateful handler trait objects are modelled by
records of pure functions describing the per-call return values, which is
all the single-step claims need.
-/

namespace Mailin

/-- ASCII bytes of a string literal (used to write concrete byte lines). -/
def ascii (s : String) : List UInt8 :=
  s.data.map (fun c => UInt8.ofNat c.toNat)

/-! ## Response model (`response.rs`) -/

/-- Model of `Action` from `response.rs`: the recommended action on a response. -/
inductive Action
  | close
  | upgradeTls
  | noReply
  | reply
deriving DecidableEq

/-- Model of `Message` from `response.rs`. -/
inductive Message
  | fixed (s : String)
  | custom (s : String)
  | dynamic (head : String) (tail : List String)
  | empty
deriving DecidableEq

/-- Model of `Response` from `response.rs`. -/
structure Response where
  code : Nat
  message : Message
  is_error : Bool
  action : Action
deriving DecidableEq

/-- Model of `Response::action_from_code`. -/
def Response.action_from_code (code : Nat) : Action :=
  if code = 221 ∨ code = 421 then Action.close else Action.reply

/-- Model of `Response::fixed_action`. -/
def Response.fixed_action (code : Nat) (message : String) (action : Action) : Response :=
  { code := code
    message := Message.fixed message
    is_error := decide (code < 200 ∨ 400 ≤ code)
    action := action }

/-- Model of `Response::fixed`. -/
def Response.fixed (code : Nat) (message : String) : Response :=
  Response.fixed_action code message (Response.action_from_code code)

/-- Model of `Response::custom`. -/
def Response.custom (code : Nat) (message : String) : Response :=
  { code := code
    message := Message.custom message
    is_error := decide (code < 200 ∨ 400 ≤ code)
    action := Response.action_from_code code }

/-- Model of `Response::dynamic`. -/
def Response.dynamic (code : Nat) (head : String) (tail : List String) : Response :=
  { code := code
    message := Message.dynamic head tail
    is_error := false
    action := Action.reply }

/-- Model of `Response::empty`. -/
def Response.empty : Response :=
  { code := 0
    message := Message.empty
    is_error := false
    action := Action.noReply }

/-- The canonical responses declared at the top of `response.rs`. -/
def EMPTY_RESPONSE : Response := Response.empty

def START_TLS : Response := Response.fixed_action 220 "Ready to start TLS" Action.upgradeTls

def GOODBYE : Response := Response.fixed 221 "Goodbye"

def AUTH_OK : Response := Response.fixed 235 "Authentication succeeded"

def OK : Response := Response.fixed 250 "OK"

def VERIFY_RESPONSE : Response := Response.fixed 252 "Maybe"

def EMPTY_AUTH_CHALLENGE : Response := Response.fixed 334 ""

def START_DATA : Response := Response.fixed 354 "Start mail input; end with <CRLF>.<CRLF>"

def INVALID_STATE : Response := Response.fixed 421 "Internal service error, closing connection"

def SYNTAX_ERROR : Response := Response.fixed 500 "Syntax error"

def MISSING_PARAMETER : Response := Response.fixed 502 "Missing parameter"

def BAD_SEQUENCE_COMMANDS : Response := Response.fixed 503 "Bad sequence of commands"

def INVALID_CREDENTIALS : Response := Response.fixed 535 "Invalid credentials"

def BAD_HELLO : Response := Response.fixed 550 "Bad HELLO"

def TRANSACTION_FAILED : Response := Response.fixed 554 "Transaction failed"

/-- The per-element lines written by the loop in `Response::write_to` for a
dynamic tail: the loop writes `"<code>-<elem>\r\n"` while
`tail.len() > 1 && i < tail.len() - 1` holds, i.e. for every element except
the last, and `"<code> <elem>\r\n"` for the last. -/
def Response.tailLines (code : Nat) : List String → List String
  | [] => []
  | [x] => [toString code ++ " " ++ x ++ "\r\n"]
  | x :: y :: rest =>
    (toString code ++ "-" ++ x ++ "\r\n") :: Response.tailLines code (y :: rest)

/-- Model of `Response::write_to`, modelled as the list of lines written (each
`write!` in the source emits exactly one of these lines). -/
def Response.write_to (r : Response) : List String :=
  match r.message with
  | Message.dynamic head tail =>
    if tail = [] then
      [toString r.code ++ " " ++ head ++ "\r\n"]
    else
      (toString r.code ++ "-" ++ head ++ "\r\n") :: Response.tailLines r.code tail
  | Message.fixed s => [toString r.code ++ " " ++ s ++ "\r\n"]
  | Message.custom s => [toString r.code ++ " " ++ s ++ "\r\n"]
  | Message.empty => []

/-! ## UTF-8 validation (model of Rust `str::from_utf8` succeeding) -/

/-- A UTF-8 continuation byte (`0x80..=0xBF`). -/
def isCont (b : UInt8) : Bool := 128 ≤ b.toNat && b.toNat ≤ 191

/-- Whether a byte sequence is valid UTF-8, following the standard table that
Rust's `str::from_utf8` implements (rejecting overlong forms, surrogates and
code points above U+10FFFF). -/
def utf8Valid : List UInt8 → Bool
  | [] => true
  | b :: rest =>
    if b.toNat ≤ 127 then utf8Valid rest
    else if 194 ≤ b.toNat && b.toNat ≤ 223 then
      match rest with
      | c1 :: r => isCont c1 && utf8Valid r
      | [] => false
    else if b.toNat = 224 then
      match rest with
      | c1 :: c2 :: r => (160 ≤ c1.toNat && c1.toNat ≤ 191) && isCont c2 && utf8Valid r
      | _ => false
    else if 225 ≤ b.toNat && b.toNat ≤ 236 then
      match rest with
      | c1 :: c2 :: r => isCont c1 && isCont c2 && utf8Valid r
      | _ => false
    else if b.toNat = 237 then
      match rest with
      | c1 :: c2 :: r => (128 ≤ c1.toNat && c1.toNat ≤ 159) && isCont c2 && utf8Valid r
      | _ => false
    else if 238 ≤ b.toNat && b.toNat ≤ 239 then
      match rest with
      | c1 :: c2 :: r => isCont c1 && isCont c2 && utf8Valid r
      | _ => false
    else if b.toNat = 240 then
      match rest with
      | c1 :: c2 :: c3 :: r =>
        (144 ≤ c1.toNat && c1.toNat ≤ 191) && isCont c2 && isCont c3 && utf8Valid r
      | _ => false
    else if 241 ≤ b.toNat && b.toNat ≤ 243 then
      match rest with
      | c1 :: c2 :: c3 :: r => isCont c1 && isCont c2 && isCont c3 && utf8Valid r
      | _ => false
    else if b.toNat = 244 then
      match rest with
      | c1 :: c2 :: c3 :: r =>
        (128 ≤ c1.toNat && c1.toNat ≤ 143) && isCont c2 && isCont c3 && utf8Valid r
      | _ => false
    else false

/-! ## Base64 decoding (model of the external `base64::decode` used by
`parser.rs`): standard alphabet, optional trailing `=` padding, canonical
(unused trailing bits must be zero). -/

/-- Value of a standard-alphabet base64 symbol. -/
def b64Val (c : UInt8) : Option Nat :=
  if 65 ≤ c.toNat && c.toNat ≤ 90 then some (c.toNat - 65)
  else if 97 ≤ c.toNat && c.toNat ≤ 122 then some (c.toNat - 71)
  else if 48 ≤ c.toNat && c.toNat ≤ 57 then some (c.toNat + 4)
  else if c.toNat = 43 then some 62
  else if c.toNat = 47 then some 63
  else none

/-- Decode a final group of two base64 symbols into one byte. -/
def b64Final2 (a b : UInt8) : Option (List UInt8) := do
  let va ← b64Val a
  let vb ← b64Val b
  if vb % 16 = 0 then pure [UInt8.ofNat (va * 4 + vb / 16)] else none

/-- Decode a final group of three base64 symbols into two bytes. -/
def b64Final3 (a b c : UInt8) : Option (List UInt8) := do
  let va ← b64Val a
  let vb ← b64Val b
  let vc ← b64Val c
  if vc % 4 = 0 then
    pure [UInt8.ofNat (va * 4 + vb / 16), UInt8.ofNat (vb % 16 * 16 + vc / 4)]
  else none

/-- Base64 decoding of a whole input. -/
def base64decode : List UInt8 → Option (List UInt8)
  | [] => some []
  | [_] => none
  | [a, b] => b64Final2 a b
  | [a, b, c] => b64Final3 a b c
  | a :: b :: c :: d :: rest =>
    if c.toNat = 61 then
      if d.toNat = 61 ∧ rest = [] then b64Final2 a b else none
    else if d.toNat = 61 then
      if rest = [] then b64Final3 a b c else none
    else do
      let va ← b64Val a
      let vb ← b64Val b
      let vc ← b64Val c
      let vd ← b64Val d
      let out ← base64decode rest
      pure (UInt8.ofNat (va * 4 + vb / 16) :: UInt8.ofNat (vb % 16 * 16 + vc / 4) ::
        UInt8.ofNat (vc % 4 * 64 + vd) :: out)

/-! ## SASL PLAIN credential decoding (`parser.rs`) -/

/-- Model of `Credentials` from `smtp.rs` (the three `String` fields as UTF-8 bytes). -/
structure Credentials where
  authorization_id : List UInt8
  authentication_id : List UInt8
  password : List UInt8
deriving DecidableEq

/-- Rust's slice `split(|b| b == &0u8)` iterator, as the list of the
separated segments (an empty slice yields one empty segment, a trailing
separator yields a trailing empty segment). -/
def splitOnNul : List UInt8 → List (List UInt8)
  | [] => [[]]
  | b :: rest =>
    if b = 0 then [] :: splitOnNul rest
    else
      match splitOnNul rest with
      | f :: fs => (b :: f) :: fs
      | [] => [[b]]

/-- Model of `next_string` from `parser.rs`: the next item of the split iterator,
decoded with `str::from_utf8(..).unwrap_or_default()`, or the default empty
string when the iterator is exhausted. -/
def next_string (it : Option (List UInt8)) : List UInt8 :=
  match it with
  | some s => if utf8Valid s then s else []
  | none => []

/-- Model of `decode_sasl_plain` from `parser.rs`. -/
def decode_sasl_plain (param : List UInt8) : Credentials :=
  match base64decode param with
  | some bytes =>
    let fields := splitOnNul bytes
    { authorization_id := next_string fields[0]?
      authentication_id := next_string fields[1]?
      password := next_string fields[2]? }
  | none =>
    { authorization_id := []
      authentication_id := []
      password := [] }

/-! ## Commands (`smtp.rs`) -/

/-- Model of `Cmd` from `smtp.rs`. -/
inductive Cmd
  | ehlo (domain : List UInt8)
  | helo (domain : List UInt8)
  | mail (reverse_path : List UInt8) (is8bit : Bool)
  | rcpt (forward_path : List UInt8)
  | data
  | rset
  | noop
  | startTls
  | quit
  | vrfy
  | authPlain (authorization_id authentication_id password : List UInt8)
  | authPlainEmpty
  | authResponse (response : List UInt8)
  | dataEnd
  | startedTls
deriving DecidableEq

/-- Model of `sasl_plain_cmd` from `parser.rs`. -/
def sasl_plain_cmd (param : List UInt8) : Cmd :=
  if param = [] then Cmd.authPlainEmpty
  else
    let creds := decode_sasl_plain param
    Cmd.authPlain creds.authorization_id creds.authentication_id creds.password

/-! ## Line parser (`parser.rs`)

The nom combinators used there are all "complete" ones, so a parse either
succeeds with a remaining input and a value or fails (`nom::Err::Incomplete`
never arises, hence the 502 branch of `parse` is unreachable).  A parser is
modelled as `List UInt8 → Option (List UInt8 × α)`. -/

namespace Parser

/-- The type of a nom parser over bytes. -/
abbrev P (α : Type) := List UInt8 → Option (List UInt8 × α)

/-- nom `map`. -/
def pmap (f : α → β) (p : P α) : P β := fun buf =>
  (p buf).map (fun ra => (ra.1, f ra.2))

/-- nom `value`. -/
def valueP (v : α) (p : P β) : P α := pmap (fun _ => v) p

/-- nom `tag`: exact byte-sequence match. -/
def tag (t : List UInt8) : P (List UInt8) := fun buf =>
  if buf.take t.length = t then some (buf.drop t.length, t) else none

/-- ASCII lower-casing of a byte, for case-insensitive tags. -/
def lowerByte (b : UInt8) : UInt8 :=
  if 65 ≤ b.toNat && b.toNat ≤ 90 then b + 32 else b

/-- nom `tag_no_case`: ASCII case-insensitive byte-sequence match. -/
def tagNoCase (t : List UInt8) : P (List UInt8) := fun buf =>
  if (buf.take t.length).map lowerByte = t.map lowerByte then
    some (buf.drop t.length, buf.take t.length)
  else none

/-- nom `take_while1`. -/
def takeWhile1 (f : UInt8 → Bool) : P (List UInt8) := fun buf =>
  let pfx := buf.takeWhile f
  if pfx = [] then none else some (buf.drop pfx.length, pfx)

/-- nom `is_not`: longest nonempty run of bytes outside the given set. -/
def isNot (set : List UInt8) : P (List UInt8) :=
  takeWhile1 (fun b => !set.contains b)

/-- nom `alt` of two parsers. -/
def alt2 (p q : P α) : P α := fun buf =>
  match p buf with
  | some r => some r
  | none => q buf

/-- nom `alt` over a list of parsers, tried in order. -/
def altL (ps : List (P α)) : P α := fun buf =>
  match ps with
  | [] => none
  | p :: rest =>
    match p buf with
    | some r => some r
    | none => altL rest buf

/-- nom `preceded`. -/
def preceded (p : P α) (q : P β) : P β := fun buf =>
  (p buf).bind fun ra => q ra.1

/-- nom `terminated`. -/
def terminatedP (p : P α) (q : P β) : P α := fun buf =>
  (p buf).bind fun ra => (q ra.1).map fun rb => (rb.1, ra.2)

/-- nom `pair`. -/
def pairP (p : P α) (q : P β) : P (α × β) := fun buf =>
  (p buf).bind fun ra => (q ra.1).map fun rb => (rb.1, (ra.2, rb.2))

/-- nom `separated_pair`. -/
def separatedPair (p : P α) (sep : P γ) (q : P β) : P (α × β) := fun buf =>
  (p buf).bind fun ra => (sep ra.1).bind fun rs => (q rs.1).map fun rb => (rb.1, (ra.2, rb.2))

/-- Model of `map_res(.., str::from_utf8)`: keep the bytes but require valid UTF-8. -/
def utf8Res (p : P (List UInt8)) : P (List UInt8) := fun buf =>
  (p buf).bind fun ra => if utf8Valid ra.2 then some ra else none

/-- Model of `space` from `parser.rs`: one or more `b' '` bytes. -/
def space : P (List UInt8) := takeWhile1 (fun b => b = 32)

/-- nom `space0`: zero or more spaces or tabs. -/
def space0 : P (List UInt8) := fun buf =>
  let pfx := buf.takeWhile (fun b => b = 32 || b = 9)
  some (buf.drop pfx.length, pfx)

/-- Model of `cmd` from `parser.rs`: the given verb followed by at least one space. -/
def cmd (cmd_tag : List UInt8) : P (List UInt8 × List UInt8) :=
  pairP (tagNoCase cmd_tag) space

/-- Model of `hello_domain` from `parser.rs`. -/
def hello_domain : P (List UInt8) := utf8Res (isNot (ascii (" \t\r\n")))

/-- Model of `helo` from `parser.rs`. -/
def helo : P Cmd := pmap Cmd.helo (preceded (cmd (ascii ("helo"))) hello_domain)

/-- Model of `ehlo` from `parser.rs`. -/
def ehlo : P Cmd := pmap Cmd.ehlo (preceded (cmd (ascii ("ehlo"))) hello_domain)

/-- Model of `mail_path` from `parser.rs`. -/
def mail_path : P (List UInt8) := utf8Res (isNot (ascii (" <>\t\r\n")))

/-- Model of `take_all` from `parser.rs`. -/
def take_all : P (List UInt8) := utf8Res (isNot (ascii ("\r\n")))

/-- Model of `body_eq_8bit` from `parser.rs`. -/
def body_eq_8bit : P Bool :=
  preceded (pairP space (tagNoCase (ascii ("body="))))
    (alt2 (valueP true (tagNoCase (ascii ("8bitmime"))))
      (valueP false (tagNoCase (ascii ("7bit")))))

/-- Model of `is8bitmime` from `parser.rs`: `body_eq_8bit` or else `false` consuming
nothing. -/
def is8bitmime : P Bool := fun buf =>
  match body_eq_8bit buf with
  | some r => some r
  | none => some (buf, false)

/-- Model of `mail` from `parser.rs`. -/
def mail : P Cmd :=
  let fromPart := separatedPair (tagNoCase (ascii ("from:"))) space0 (tagNoCase (ascii ("<")))
  let preamble := pairP (cmd (ascii ("mail"))) fromPart
  let mail_path_p := preceded preamble mail_path
  let p := separatedPair mail_path_p (tag (ascii (">"))) is8bitmime
  pmap (fun r => Cmd.mail r.1 r.2) p

/-- Model of `rcpt` from `parser.rs`. -/
def rcpt : P Cmd :=
  let toPart := separatedPair (tagNoCase (ascii ("to:"))) space0 (tagNoCase (ascii ("<")))
  let preamble := pairP (cmd (ascii ("rcpt"))) toPart
  let mail_path_p := preceded preamble mail_path
  let p := terminatedP mail_path_p (tag (ascii (">")))
  pmap Cmd.rcpt p

/-- Model of `data` from `parser.rs`. -/
def data : P Cmd := valueP Cmd.data (tagNoCase (ascii ("data")))

/-- Model of `rset` from `parser.rs`. -/
def rset : P Cmd := valueP Cmd.rset (tagNoCase (ascii ("rset")))

/-- Model of `quit` from `parser.rs`. -/
def quit : P Cmd := valueP Cmd.quit (tagNoCase (ascii ("quit")))

/-- Model of `vrfy` from `parser.rs`. -/
def vrfy : P Cmd := valueP Cmd.vrfy (preceded (cmd (ascii ("vrfy"))) take_all)

/-- Model of `noop` from `parser.rs`. -/
def noop : P Cmd := valueP Cmd.noop (tagNoCase (ascii ("noop")))

/-- Model of `starttls` from `parser.rs`. -/
def starttls : P Cmd := valueP Cmd.startTls (tagNoCase (ascii ("starttls")))

/-- Model of `is_base64` from `parser.rs`. -/
def is_base64 (chr : UInt8) : Bool :=
  (65 ≤ chr.toNat && chr.toNat ≤ 90) || (97 ≤ chr.toNat && chr.toNat ≤ 122) ||
    (48 ≤ chr.toNat && chr.toNat ≤ 57) || chr.toNat = 43 || chr.toNat = 47 || chr.toNat = 61

/-- Model of `auth_initial` from `parser.rs`. -/
def auth_initial : P (List UInt8) := preceded space (takeWhile1 is_base64)

/-- Model of `auth_response` from `parser.rs`. -/
def auth_response : P (List UInt8) := terminatedP (takeWhile1 is_base64) (tag (ascii ("\r\n")))

/-- Model of `empty` from `parser.rs`: succeed consuming nothing. -/
def emptyP : P (List UInt8) := fun buf => some (buf, [])

/-- Model of `auth_plain` from `parser.rs`. -/
def auth_plain : P Cmd :=
  pmap sasl_plain_cmd (preceded (tagNoCase (ascii ("plain"))) (alt2 auth_initial emptyP))

/-- Model of `auth` from `parser.rs`. -/
def auth : P Cmd := preceded (cmd (ascii ("auth"))) auth_plain

/-- Model of `command` from `parser.rs`. -/
def command : P Cmd :=
  terminatedP
    (altL [helo, ehlo, mail, rcpt, data, rset, quit, vrfy, noop, starttls, auth])
    (tag (ascii ("\r\n")))

end Parser

/-- Model of `parse` from `parser.rs`.  All combinators are complete, so the
`Incomplete → MISSING_PARAMETER` branch of the source is unreachable and a
failure is always `SYNTAX_ERROR`. -/
def parse (line : List UInt8) : Except Response Cmd :=
  match Parser.command line with
  | some r => Except.ok r.2
  | none => Except.error SYNTAX_ERROR

/-- Model of `parse_auth_response` from `parser.rs`. -/
def parse_auth_response (line : List UInt8) : Except Response (List UInt8) :=
  match Parser.auth_response line with
  | some r => Except.ok r.2
  | none => Except.error SYNTAX_ERROR

/-! ## State machine (`fsm.rs`) -/

/-- Model of `TlsState` from `fsm.rs`. -/
inductive TlsState
  | unavailable
  | inactive
  | active
deriving DecidableEq

/-- Model of `AuthState` from `fsm.rs`. -/
inductive AuthState
  | unavailable
  | requiresAuth
  | authenticated
deriving DecidableEq

/-- Model of `AuthMechanism` from `lib.rs`. -/
inductive AuthMechanism
  | plain
deriving DecidableEq

/-- Model of `AuthMechanism::extension` from `lib.rs`. -/
def AuthMechanism.extension : AuthMechanism → String
  | AuthMechanism.plain => "AUTH PLAIN"

/-- The seven `State` trait implementors of `fsm.rs`, as a tagged variant
carrying each state's fields. -/
inductive SState
  | idle
  | hello (domain : List UInt8)
  | helloAuth (domain : List UInt8)
  | auth (domain : List UInt8) (mechanism : AuthMechanism)
  | mail (domain reverse_path : List UInt8) (is8bit : Bool)
  | rcpt (domain reverse_path : List UInt8) (is8bit : Bool) (forward_path : List (List UInt8))
  | data (domain : List UInt8)
deriving DecidableEq

/-- The peer IP address; its content is irrelevant to the engine, which only
forwards it to callbacks. -/
abbrev IpAddr := Nat

/-- Model of `StateMachine` from `fsm.rs`. -/
structure StateMachine where
  ip : IpAddr
  auth_mechanisms : List AuthMechanism
  auth_state : AuthState
  tls : TlsState
  smtp : Option SState
  auth_plain : Bool
deriving DecidableEq

/-- The embedding's `Handler` trait (`lib.rs`), modelled by the values its
callbacks return on a call.  `data` returns an `io::Result<()>`, modelled as
`Except Unit Unit`. -/
structure Handler where
  helo : IpAddr → List UInt8 → Response
  mail : IpAddr → List UInt8 → List UInt8 → Response
  rcpt : List UInt8 → Response
  data_start : List UInt8 → List UInt8 → Bool → List (List UInt8) → Response
  data : List UInt8 → Except Unit Unit
  data_end : Response
  auth_plain : List UInt8 → List UInt8 → List UInt8 → Response

/-- The default `Handler` trait implementation from `lib.rs`: every callback
accepts (250 OK) except `auth_plain`, which rejects with 535. -/
def defaultHandler : Handler :=
  { helo := fun _ _ => OK
    mail := fun _ _ _ => OK
    rcpt := fun _ => OK
    data_start := fun _ _ _ _ => OK
    data := fun _ => Except.ok ()
    data_end := OK
    auth_plain := fun _ _ _ => INVALID_CREDENTIALS }

/-- Model of `next_state` from `fsm.rs`: pick the next state from the response. -/
def next_state (current : SState) (res : Response) (next : Unit → SState) :
    Response × Option SState :=
  if res.action = Action.close then (res, none)
  else if res.is_error then (res, some current)
  else (res, some (next ()))

/-- Model of `transform_state` from `fsm.rs`: like `next_state` but the continuation
consumes the current state. -/
def transform_state (current : SState) (res : Response) (next : SState → SState) :
    Response × Option SState :=
  if res.action = Action.close then (res, none)
  else if res.is_error then (res, some current)
  else (res, some (next current))

/-- Model of `unhandled` from `fsm.rs`. -/
def unhandled (current : SState) : Response × Option SState :=
  (BAD_SEQUENCE_COMMANDS, some current)

/-- Model of `handle_rset` from `fsm.rs`. -/
def handle_rset (fsm : StateMachine) (domain : List UInt8) : Response × Option SState :=
  match fsm.auth_state with
  | AuthState.unavailable => (OK, some (SState.hello domain))
  | _ => (OK, some (SState.helloAuth domain))

/-- Model of `handle_helo` from `fsm.rs`. -/
def handle_helo (current : SState) (fsm : StateMachine) (h : Handler) (domain : List UInt8) :
    Response × Option SState :=
  match fsm.auth_state with
  | AuthState.unavailable =>
    next_state current (h.helo fsm.ip domain) (fun _ => SState.hello domain)
  | _ => (BAD_HELLO, some current)

/-- Model of `StateMachine::ehlo_response` from `fsm.rs`. -/
def ehlo_response (fsm : StateMachine) : Response :=
  let extensions := ["8BITMIME"]
  let extensions :=
    if fsm.tls = TlsState.inactive then extensions ++ ["STARTTLS"]
    else extensions ++ fsm.auth_mechanisms.map AuthMechanism.extension
  Response.dynamic 250 "server offers extensions:" extensions

/-- Model of `handle_ehlo` from `fsm.rs`. -/
def handle_ehlo (current : SState) (fsm : StateMachine) (h : Handler) (domain : List UInt8) :
    Response × Option SState :=
  let res := h.helo fsm.ip domain
  let res := if res.code = 250 then ehlo_response fsm else res
  match fsm.auth_state with
  | AuthState.unavailable => next_state current res (fun _ => SState.hello domain)
  | _ => next_state current res (fun _ => SState.helloAuth domain)

/-- Model of `default_handler` from `fsm.rs`: answers quit/helo/ehlo in every state and
503 to everything else. -/
def default_handler (current : SState) (fsm : StateMachine) (h : Handler) (c : Cmd) :
    Response × Option SState :=
  match c with
  | Cmd.quit => (GOODBYE, none)
  | Cmd.helo domain => handle_helo current fsm h domain
  | Cmd.ehlo domain => handle_ehlo current fsm h domain
  | _ => unhandled current

/-- Model of `authenticate` from `fsm.rs`: run the `auth_plain` callback and update
`fsm.auth_state` from the response code. -/
def authenticate (fsm : StateMachine) (h : Handler)
    (authorization_id authentication_id password : List UInt8) :
    Response × StateMachine :=
  let auth_res := h.auth_plain authorization_id authentication_id password
  (auth_res,
    { fsm with
      auth_state :=
        if auth_res.code = 235 then AuthState.authenticated else AuthState.requiresAuth })

/-- Model of `StateMachine::allow_auth_plain` from `fsm.rs`. -/
def allow_auth_plain (fsm : StateMachine) : Bool :=
  fsm.auth_plain && fsm.tls = TlsState.active

/-- The `State::handle` dispatch of `fsm.rs`: given the current state (taken
out of the machine), the machine, the handler and a command, produce the
response, the next state and the machine with its mutable fields
(`tls`, `auth_state`) updated. -/
def handle (s : SState) (fsm : StateMachine) (h : Handler) (c : Cmd) :
    Response × Option SState × StateMachine :=
  match s with
  | SState.idle =>
    match c with
    | Cmd.startedTls => (EMPTY_RESPONSE, some SState.idle, { fsm with tls := TlsState.active })
    | Cmd.rset => (OK, some SState.idle, fsm)
    | _ =>
      let rn := default_handler SState.idle fsm h c
      (rn.1, rn.2, fsm)
  | SState.hello domain =>
    match c with
    | Cmd.mail reverse_path is8bit =>
      let res := h.mail fsm.ip domain reverse_path
      let rn := transform_state (SState.hello domain) res
        (fun _ => SState.mail domain reverse_path is8bit)
      (rn.1, rn.2, fsm)
    | Cmd.startTls =>
      if fsm.tls = TlsState.inactive then (START_TLS, some SState.idle, fsm)
      else
        let rn := default_handler (SState.hello domain) fsm h c
        (rn.1, rn.2, fsm)
    | Cmd.vrfy => (VERIFY_RESPONSE, some (SState.hello domain), fsm)
    | Cmd.rset =>
      let rn := handle_rset fsm domain
      (rn.1, rn.2, fsm)
    | _ =>
      let rn := default_handler (SState.hello domain) fsm h c
      (rn.1, rn.2, fsm)
  | SState.helloAuth domain =>
    match c with
    | Cmd.startTls => (START_TLS, some SState.idle, fsm)
    | Cmd.authPlain authorization_id authentication_id password =>
      if allow_auth_plain fsm then
        let rf := authenticate fsm h authorization_id authentication_id password
        let rn := transform_state (SState.helloAuth domain) rf.1
          (fun _ => SState.hello domain)
        (rn.1, rn.2, rf.2)
      else
        let rn := default_handler (SState.helloAuth domain) fsm h c
        (rn.1, rn.2, fsm)
    | Cmd.authPlainEmpty =>
      if allow_auth_plain fsm then
        (EMPTY_AUTH_CHALLENGE, some (SState.auth domain AuthMechanism.plain), fsm)
      else
        let rn := default_handler (SState.helloAuth domain) fsm h c
        (rn.1, rn.2, fsm)
    | Cmd.rset =>
      let rn := handle_rset fsm domain
      (rn.1, rn.2, fsm)
    | _ =>
      let rn := default_handler (SState.helloAuth domain) fsm h c
      (rn.1, rn.2, fsm)
  | SState.auth domain mechanism =>
    match c with
    | Cmd.authResponse response =>
      let rf :=
        match mechanism with
        | AuthMechanism.plain =>
          let creds := decode_sasl_plain response
          authenticate fsm h creds.authorization_id creds.authentication_id creds.password
      if rf.1.is_error then (rf.1, some (SState.helloAuth domain), rf.2)
      else (rf.1, some (SState.hello domain), rf.2)
    | _ =>
      let rn := unhandled (SState.auth domain mechanism)
      (rn.1, rn.2, fsm)
  | SState.mail domain reverse_path is8bit =>
    match c with
    | Cmd.rcpt forward_path =>
      let res := h.rcpt forward_path
      let rn := transform_state (SState.mail domain reverse_path is8bit) res
        (fun _ => SState.rcpt domain reverse_path is8bit [forward_path])
      (rn.1, rn.2, fsm)
    | Cmd.rset =>
      let rn := handle_rset fsm domain
      (rn.1, rn.2, fsm)
    | _ =>
      let rn := default_handler (SState.mail domain reverse_path is8bit) fsm h c
      (rn.1, rn.2, fsm)
  | SState.rcpt domain reverse_path is8bit forward_path =>
    match c with
    | Cmd.data =>
      let res := h.data_start domain reverse_path is8bit forward_path
      let res := if res.is_error then res else START_DATA
      let rn := transform_state (SState.rcpt domain reverse_path is8bit forward_path) res
        (fun _ => SState.data domain)
      (rn.1, rn.2, fsm)
    | Cmd.rcpt fp =>
      let res := h.rcpt fp
      let rn := transform_state (SState.rcpt domain reverse_path is8bit forward_path) res
        (fun _ => SState.rcpt domain reverse_path is8bit (forward_path ++ [fp]))
      (rn.1, rn.2, fsm)
    | Cmd.rset =>
      let rn := handle_rset fsm domain
      (rn.1, rn.2, fsm)
    | _ =>
      let rn := default_handler (SState.rcpt domain reverse_path is8bit forward_path) fsm h c
      (rn.1, rn.2, fsm)
  | SState.data domain =>
    match c with
    | Cmd.dataEnd =>
      let res := h.data_end
      let rn := transform_state (SState.data domain) res (fun _ => SState.hello domain)
      (rn.1, rn.2, fsm)
    | _ =>
      let rn := unhandled (SState.data domain)
      (rn.1, rn.2, fsm)

/-- The line a `Data` body line delivers to the embedding after the
dot-stuffing unescape of `Data::process_line`: a line beginning with `.` has
exactly its first byte removed. -/
def unstuff (line : List UInt8) : List UInt8 :=
  if line.take 1 = [46] then line.drop 1 else line

/-- The delivery step of `Data::process_line`: call the embedding's `data`
callback and turn its `io::Result` into a response. -/
def dataDeliver (h : Handler) (line : List UInt8) : Sum Cmd Response :=
  match h.data line with
  | Except.ok _ => Sum.inr EMPTY_RESPONSE
  | Except.error _ => Sum.inr TRANSACTION_FAILED

/-- The `State::process_line` dispatch of `fsm.rs`: `Data` and `Auth` have
specialized line parsers, every other state uses the command parser.
`Left` (a command) is `Sum.inl`, `Right` (a response) is `Sum.inr`. -/
def state_process_line (s : SState) (h : Handler) (line : List UInt8) : Sum Cmd Response :=
  match s with
  | SState.data _ =>
    if line = ascii (".\r\n") then Sum.inl Cmd.dataEnd
    else dataDeliver h (unstuff line)
  | SState.auth _ _ =>
    match parse_auth_response line with
    | Except.ok r => Sum.inl (Cmd.authResponse r)
    | Except.error res => Sum.inr res
  | _ =>
    match parse line with
    | Except.ok c => Sum.inl c
    | Except.error res => Sum.inr res

/-- Model of `StateMachine::command` from `fsm.rs`. -/
def StateMachine.command (fsm : StateMachine) (h : Handler) (c : Cmd) :
    Response × StateMachine :=
  match fsm.smtp with
  | some last_state =>
    let r := handle last_state fsm h c
    (r.1, { r.2.2 with smtp := r.2.1 })
  | none => (INVALID_STATE, { fsm with smtp := none })

/-- Model of `StateMachine::process_line` from `fsm.rs`. -/
def StateMachine.process_line (fsm : StateMachine) (h : Handler) (line : List UInt8) :
    Sum Cmd Response :=
  match fsm.smtp with
  | some s => state_process_line s h line
  | none => Sum.inr INVALID_STATE

/-- Model of `Session::process` from `smtp.rs` (minus logging): parse the line within
the current state, then apply the command; a parse-failure response leaves
the machine untouched. -/
def StateMachine.process (fsm : StateMachine) (h : Handler) (line : List UInt8) :
    Response × StateMachine :=
  match StateMachine.process_line fsm h line with
  | Sum.inl c => StateMachine.command fsm h c
  | Sum.inr res => (res, fsm)

/-- Model of `StateMachine::new` from `fsm.rs`. -/
def StateMachine.new (ip : IpAddr) (auth_mechanisms : List AuthMechanism)
    (allow_start_tls : Bool) : StateMachine :=
  { ip := ip
    auth_mechanisms := auth_mechanisms
    auth_state :=
      if auth_mechanisms = [] then AuthState.unavailable else AuthState.requiresAuth
    tls := if allow_start_tls then TlsState.inactive else TlsState.unavailable
    smtp := some SState.idle
    auth_plain := auth_mechanisms.contains AuthMechanism.plain }

/-- The peer-side dot-stuffing transformation.  Modelled from the spec:
"the framing convention that escapes a leading `.` in a body line by
doubling it" (the peer's encoder is not part of the repository). -/
def dotStuff (line : List UInt8) : List UInt8 :=
  if line.take 1 = [46] then 46 :: line else line

/-- Tail list of a dynamic message (for a successful EHLO, the advertised
extension list). -/
def Message.dynamicTail : Message → List String
  | Message.dynamic _ tail => tail
  | _ => []

/-- A handler whose `data` callback always reports an I/O error. -/
def failingDataHandler : Handler := { defaultHandler with data := fun _ => Except.error () }

/-- A concrete machine sitting in the `Data` state. -/
def fsmData : StateMachine :=
  { ip := 0
    auth_mechanisms := []
    auth_state := AuthState.unavailable
    tls := TlsState.unavailable
    smtp := some (SState.data (ascii ("a")))
    auth_plain := false }

/-- A concrete machine with plain auth configured and TLS already active
(reached after STARTTLS, the TLS handshake signal and a second EHLO). -/
def fsmTlsActive : StateMachine :=
  { ip := 0
    auth_mechanisms := [AuthMechanism.plain]
    auth_state := AuthState.requiresAuth
    tls := TlsState.active
    smtp := some (SState.helloAuth (ascii ("x")))
    auth_plain := true }

/-! ## Theorems -/

/-- Helper: the lines of a nonempty dynamic tail are a `-`-separated line for
every element but the last and a space-separated line for the last. -/
theorem tailLines_spec (code : Nat) (x : String) (tail : List String) :
    Response.tailLines code (x :: tail) =
      ((x :: tail).dropLast.map (fun e => toString code ++ "-" ++ e ++ "\r\n")) ++
        [toString code ++ " " ++ (x :: tail).getLastD ("") ++ "\r\n"] := by
  induction tail generalizing x with
  | nil => simp [Response.tailLines]
  | cons y rest ih =>
    rw [Response.tailLines, ih y]
    simp [List.getLastD]

/-- C5 (corrected) counterexample: the empty construction form has code 0,
which is below 200, yet its is_error flag is false, so the claimed
equivalence fails for the empty form. -/
theorem C5_counterexample :
    Response.empty.code < 200 ∧ Response.empty.is_error = false := by decide

/-- C5 (amended): for the fixed, fixed-with-action and custom forms,
is_error is true exactly when the code is below 200 or at least 400, and the
default action rule (applied by fixed and custom, while fixed-with-action
takes the caller's action) maps 221 and 421 to close and every other code to
reply; the dynamic form always has is_error false and action reply whatever
its code, and the empty response has code 0, is_error false and action
no-reply. -/
theorem C5_response_flags (code : Nat) (msg s head : String) (a : Action)
    (tail : List String) :
    (Response.fixed code msg).is_error = decide (code < 200 ∨ 400 ≤ code) ∧
    (Response.fixed_action code msg a).is_error = decide (code < 200 ∨ 400 ≤ code) ∧
    (Response.custom code s).is_error = decide (code < 200 ∨ 400 ≤ code) ∧
    (Response.fixed code msg).action = Response.action_from_code code ∧
    (Response.fixed_action code msg a).action = a ∧
    (Response.custom code s).action = Response.action_from_code code ∧
    Response.action_from_code code =
      (if code = 221 ∨ code = 421 then Action.close else Action.reply) ∧
    (Response.dynamic code head tail).is_error = false ∧
    (Response.dynamic code head tail).action = Action.reply ∧
    Response.empty.code = 0 ∧
    Response.empty.is_error = false ∧
    Response.empty.action = Action.noReply :=
  ⟨rfl, rfl, rfl, rfl, rfl, rfl, rfl, rfl, rfl, rfl, rfl, rfl⟩

/-- C6 (confirmed): the serializer emits, for a dynamic response with empty
tail, the single line `"<code> <head>\r\n"`; with nonempty tail the line
`"<code>-<head>\r\n"` followed by `"<code>-<elem>\r\n"` for every tail
element except the last and `"<code> <elem>\r\n"` for the last; for fixed
and custom responses the single line `"<code> <msg>\r\n"`; and for the empty
response nothing at all. -/
theorem C6_serializer (code : Nat) (head msg s : String) (tail : List String) :
    (Response.dynamic code head []).write_to = [toString code ++ " " ++ head ++ "\r\n"] ∧
    (tail ≠ [] →
      (Response.dynamic code head tail).write_to =
        (toString code ++ "-" ++ head ++ "\r\n") ::
          (tail.dropLast.map (fun e => toString code ++ "-" ++ e ++ "\r\n") ++
            [toString code ++ " " ++ tail.getLastD ("") ++ "\r\n"])) ∧
    (Response.fixed code msg).write_to = [toString code ++ " " ++ msg ++ "\r\n"] ∧
    (Response.custom code s).write_to = [toString code ++ " " ++ s ++ "\r\n"] ∧
    Response.empty.write_to = [] := by
  refine ⟨rfl, ?_, rfl, rfl, rfl⟩
  intro hne
  match tail, hne with
  | x :: rest, _ =>
    rw [Response.write_to]
    simp [Response.dynamic, tailLines_spec]

/-- C6 witness: the serializer at a concrete dynamic response with a
two-element tail. -/
theorem C6_witness :
    (Response.dynamic 250 "h" ["A", "B"]).write_to =
      (toString 250 ++ "-" ++ "h" ++ "\r\n") ::
        ((["A", "B"].dropLast).map (fun e => toString 250 ++ "-" ++ e ++ "\r\n") ++
          [toString 250 ++ " " ++ ["A", "B"].getLastD ("") ++ "\r\n"]) :=
  (C6_serializer 250 "h" "" "" ["A", "B"]).2.1 (by decide)

/-- Helper: the terminator line as bytes. -/
theorem ascii_dot_crlf : ascii (".\r\n") = [46, 13, 10] := by decide

/-- C4 (confirmed): in the Data state the exact line `.\r\n` yields the
synthetic end-of-data command (whose handling runs the data_end callback
and, when it neither errs nor closes, moves to Hello); any other line
beginning with `.` is delivered to the data callback with exactly its first
byte removed, lines not beginning with `.` are delivered unchanged, and
consequently a peer line produced by the dot-stuffing transformation of a
body line B is observed by the data callback as exactly B. -/
theorem C4_dot_stuffing (h : Handler) (fsm : StateMachine) (d line B : List UInt8) :
    state_process_line (SState.data d) h (ascii (".\r\n")) = Sum.inl Cmd.dataEnd ∧
    (line ≠ ascii (".\r\n") → line.take 1 = [46] →
      state_process_line (SState.data d) h line = dataDeliver h (line.drop 1)) ∧
    (line ≠ ascii (".\r\n") → line.take 1 ≠ [46] →
      state_process_line (SState.data d) h line = dataDeliver h line) ∧
    state_process_line (SState.data d) h (dotStuff B) = dataDeliver h B ∧
    (h.data_end.is_error = false → h.data_end.action ≠ Action.close →
      handle (SState.data d) fsm h Cmd.dataEnd = (h.data_end, some (SState.hello d), fsm)) := by
  refine ⟨by simp [state_process_line], ?_, ?_, ?_, ?_⟩
  · intro hne hdot
    simp [state_process_line, hne, unstuff, hdot]
  · intro hne hdot
    simp [state_process_line, hne, unstuff, hdot]
  · by_cases hdot : B.take 1 = [46]
    · have hstuff : dotStuff B = 46 :: B := by simp [dotStuff, hdot]
      have hne : (46 :: B) ≠ ascii (".\r\n") := by
        rw [ascii_dot_crlf]
        intro hcontra
        have hB : B = [13, 10] := by injection hcontra
        rw [hB] at hdot
        exact absurd hdot (by decide)
      rw [hstuff]
      simp [state_process_line, hne, unstuff]
    · have hstuff : dotStuff B = B := by simp [dotStuff, hdot]
      have hne : B ≠ ascii (".\r\n") := by
        rw [ascii_dot_crlf]
        intro hcontra
        rw [hcontra] at hdot
        exact absurd rfl hdot
      rw [hstuff]
      simp [state_process_line, hne, unstuff, hdot]
  · intro herr hclose
    simp [handle, transform_state, herr, hclose]

/-- C4 witness: a concrete dot-stuffed line is delivered with its leading
dot removed. -/
theorem C4_witness :
    state_process_line (SState.data (ascii ("a"))) defaultHandler (ascii ("..b\r\n")) =
      dataDeliver defaultHandler ((ascii ("..b\r\n")).drop 1) :=
  ((C4_dot_stuffing defaultHandler fsmData (ascii ("a")) (ascii ("..b\r\n")) []).2.1
    (by decide) (by decide))

/-- C7 (confirmed): in the Data state, a non-terminator line on which the
embedding's data callback reports an I/O error is answered with the 554
"Transaction failed" response and the machine is unchanged (still in Data);
on callback success the empty no-reply response is returned and the machine
is likewise unchanged. -/
theorem C7_data_errors (fsm : StateMachine) (h : Handler) (d line : List UInt8)
    (hs : fsm.smtp = some (SState.data d)) (hline : line ≠ ascii (".\r\n")) :
    (h.data (unstuff line) = Except.error () →
      StateMachine.process fsm h line = (TRANSACTION_FAILED, fsm)) ∧
    (h.data (unstuff line) = Except.ok () →
      StateMachine.process fsm h line = (EMPTY_RESPONSE, fsm)) ∧
    TRANSACTION_FAILED = Response.fixed 554 "Transaction failed" ∧
    EMPTY_RESPONSE.action = Action.noReply := by
  refine ⟨?_, ?_, rfl, rfl⟩
  · intro herr
    simp [StateMachine.process, StateMachine.process_line, hs, state_process_line, hline,
      dataDeliver, herr]
  · intro hok
    simp [StateMachine.process, StateMachine.process_line, hs, state_process_line, hline,
      dataDeliver, hok]

/-- C7 witness: a concrete failing data callback yields 554 and leaves the
machine in the Data state. -/
theorem C7_witness :
    StateMachine.process fsmData failingDataHandler (ascii ("xyz\r\n")) =
      (TRANSACTION_FAILED, fsmData) :=
  (C7_data_errors fsmData failingDataHandler (ascii ("a")) (ascii ("xyz\r\n"))
    (by rfl) (by decide)).1 (by rfl)

/-- C9 (confirmed): a well-formed NOOP line is recognized by the parser as
the no-op command, and in every command-parsing protocol state (Idle, Hello,
HelloAuth, Mail, Rcpt) that command falls through to the default handler and
is answered 503 "Bad sequence of commands" with the state (and the whole
machine) unchanged. -/
theorem C9_noop_unhandled (fsm : StateMachine) (h : Handler) (d rp : List UInt8)
    (is8 : Bool) (fps : List (List UInt8)) :
    parse (ascii ("NOOP\r\n")) = Except.ok Cmd.noop ∧
    handle SState.idle fsm h Cmd.noop = (BAD_SEQUENCE_COMMANDS, some SState.idle, fsm) ∧
    handle (SState.hello d) fsm h Cmd.noop =
      (BAD_SEQUENCE_COMMANDS, some (SState.hello d), fsm) ∧
    handle (SState.helloAuth d) fsm h Cmd.noop =
      (BAD_SEQUENCE_COMMANDS, some (SState.helloAuth d), fsm) ∧
    handle (SState.mail d rp is8) fsm h Cmd.noop =
      (BAD_SEQUENCE_COMMANDS, some (SState.mail d rp is8), fsm) ∧
    handle (SState.rcpt d rp is8 fps) fsm h Cmd.noop =
      (BAD_SEQUENCE_COMMANDS, some (SState.rcpt d rp is8 fps), fsm) ∧
    StateMachine.process { fsm with smtp := some (SState.hello d) } h (ascii ("NOOP\r\n")) =
      (BAD_SEQUENCE_COMMANDS, { fsm with smtp := some (SState.hello d) }) ∧
    BAD_SEQUENCE_COMMANDS = Response.fixed 503 "Bad sequence of commands" :=
  ⟨rfl, rfl, rfl, rfl, rfl, rfl, rfl, rfl⟩

/-- C10 (confirmed): the null-path lines `MAIL FROM:<>` and `RCPT TO:<>` are
parse errors (the path token parser needs at least one byte), answered 500
"Syntax error", and a machine in a command-parsing state is left completely
unchanged by them. -/
theorem C10_empty_path (fsm : StateMachine) (h : Handler) (d rp : List UInt8) (is8 : Bool) :
    Parser.mail_path (ascii (">\r\n")) = none ∧
    parse (ascii ("MAIL FROM:<>\r\n")) = Except.error SYNTAX_ERROR ∧
    parse (ascii ("RCPT TO:<>\r\n")) = Except.error SYNTAX_ERROR ∧
    SYNTAX_ERROR = Response.fixed 500 "Syntax error" ∧
    StateMachine.process { fsm with smtp := some (SState.hello d) } h
        (ascii ("MAIL FROM:<>\r\n")) =
      (SYNTAX_ERROR, { fsm with smtp := some (SState.hello d) }) ∧
    StateMachine.process { fsm with smtp := some (SState.mail d rp is8) } h
        (ascii ("RCPT TO:<>\r\n")) =
      (SYNTAX_ERROR, { fsm with smtp := some (SState.mail d rp is8) }) :=
  ⟨rfl, rfl, rfl, rfl, rfl, rfl⟩

/-- C1 (corrected) counterexample: from the Auth continuation state, an
erroring auth_plain callback (the default handler's 535) does not preserve
the protocol state — the machine moves to HelloAuth, not back to Auth — so
the claimed error-branch semantics fail for the Auth state. -/
theorem C1_counterexample :
    ((handle (SState.auth (ascii ("a")) AuthMechanism.plain)
        (StateMachine.new 0 [AuthMechanism.plain] true) defaultHandler
        (Cmd.authResponse (ascii ("dGVzdAB0ZXN0ADEyMzQ=")))).1.is_error = true) ∧
    ((handle (SState.auth (ascii ("a")) AuthMechanism.plain)
        (StateMachine.new 0 [AuthMechanism.plain] true) defaultHandler
        (Cmd.authResponse (ascii ("dGVzdAB0ZXN0ADEyMzQ=")))).2.1 ≠
      some (SState.auth (ascii ("a")) AuthMechanism.plain)) := by decide

/-- C1 (amended): for every callback response dispatched through
next_state or transform_state, a close action terminates the session (the
response returned unchanged); otherwise an error response preserves the
state and is returned unchanged, and otherwise the target transition fires.
The auth_plain callback dispatched from the Auth continuation state is the
exception: its response is returned unchanged, but on error the machine
moves to HelloAuth (not back to Auth), otherwise to Hello, and it never
terminates on a close action. -/
theorem C1_transition_semantics (current : SState) (res : Response) (f : Unit → SState)
    (g : SState → SState) (d b : List UInt8) (fsm : StateMachine) (h : Handler) :
    (res.action = Action.close →
      next_state current res f = (res, none) ∧
        transform_state current res g = (res, none)) ∧
    (res.action ≠ Action.close → res.is_error = true →
      next_state current res f = (res, some current) ∧
        transform_state current res g = (res, some current)) ∧
    (res.action ≠ Action.close → res.is_error = false →
      next_state current res f = (res, some (f ())) ∧
        transform_state current res g = (res, some (g current))) ∧
    (handle (SState.auth d AuthMechanism.plain) fsm h (Cmd.authResponse b) =
      ((authenticate fsm h (decode_sasl_plain b).authorization_id
          (decode_sasl_plain b).authentication_id (decode_sasl_plain b).password).1,
        some (if (authenticate fsm h (decode_sasl_plain b).authorization_id
              (decode_sasl_plain b).authentication_id (decode_sasl_plain b).password).1.is_error
          then SState.helloAuth d else SState.hello d),
        (authenticate fsm h (decode_sasl_plain b).authorization_id
          (decode_sasl_plain b).authentication_id (decode_sasl_plain b).password).2)) := by
  refine ⟨?_, ?_, ?_, ?_⟩
  · intro hclose
    constructor <;> simp [next_state, transform_state, hclose]
  · intro hclose herr
    constructor <;> simp [next_state, transform_state, hclose, herr]
  · intro hclose herr
    constructor <;> simp [next_state, transform_state, hclose, herr]
  · cases hb : (authenticate fsm h (decode_sasl_plain b).authorization_id
        (decode_sasl_plain b).authentication_id (decode_sasl_plain b).password).1.is_error <;>
      simp [handle, hb]

/-- C1 witness: the close branch at a concrete close-action response. -/
theorem C1_witness :
    next_state SState.idle GOODBYE (fun _ => SState.idle) = (GOODBYE, none) ∧
    transform_state SState.idle GOODBYE (fun s => s) = (GOODBYE, none) :=
  (C1_transition_semantics SState.idle GOODBYE (fun _ => SState.idle) (fun s => s)
    [] [] (StateMachine.new 0 [] false) defaultHandler).1 (by decide)

/-- C2 (corrected) counterexample: in HelloAuth with TLS already active, a
STARTTLS command is still answered 220 "Ready to start TLS" with the
upgrade-tls action and a move to Idle, not the claimed 503 with unchanged
state. -/
theorem C2_counterexample :
    (handle (SState.helloAuth (ascii ("x"))) fsmTlsActive defaultHandler Cmd.startTls).1 =
      START_TLS ∧
    (handle (SState.helloAuth (ascii ("x"))) fsmTlsActive defaultHandler Cmd.startTls).2.1 =
      some SState.idle ∧
    START_TLS ≠ BAD_SEQUENCE_COMMANDS ∧
    fsmTlsActive.tls = TlsState.active := by decide

/-- C2 (amended): in the Hello state, STARTTLS is answered 220 "Ready to
start TLS" with action upgrade-tls and a transition to Idle exactly when the
TLS posture is inactive, and otherwise 503 "Bad sequence of commands" with
the state unchanged; in the HelloAuth state, however, STARTTLS is answered
220 with upgrade-tls and a transition to Idle regardless of the TLS
posture. -/
theorem C2_starttls_gating (fsm : StateMachine) (h : Handler) (d : List UInt8) :
    (fsm.tls = TlsState.inactive →
      handle (SState.hello d) fsm h Cmd.startTls = (START_TLS, some SState.idle, fsm)) ∧
    (fsm.tls ≠ TlsState.inactive →
      handle (SState.hello d) fsm h Cmd.startTls =
        (BAD_SEQUENCE_COMMANDS, some (SState.hello d), fsm)) ∧
    handle (SState.helloAuth d) fsm h Cmd.startTls = (START_TLS, some SState.idle, fsm) ∧
    START_TLS = Response.fixed_action 220 "Ready to start TLS" Action.upgradeTls ∧
    BAD_SEQUENCE_COMMANDS = Response.fixed 503 "Bad sequence of commands" := by
  refine ⟨?_, ?_, rfl, rfl, rfl⟩
  · intro htls
    simp [handle, htls]
  · intro htls
    simp [handle, htls, default_handler, unhandled]

/-- C2 witness: STARTTLS accepted from Hello at a concrete machine with
inactive TLS. -/
theorem C2_witness :
    handle (SState.hello (ascii ("a"))) (StateMachine.new 0 [] true) defaultHandler
        Cmd.startTls =
      (START_TLS, some SState.idle, StateMachine.new 0 [] true) :=
  (C2_starttls_gating (StateMachine.new 0 [] true) defaultHandler (ascii ("a"))).1 (by decide)

/-- Helper: the only mechanism's extension string. -/
theorem extension_plain (m : AuthMechanism) : m.extension = "AUTH PLAIN" := by
  cases m
  rfl

/-- Helper: the first component returned by next_state is always the given
response. -/
theorem next_state_fst (c : SState) (r : Response) (f : Unit → SState) :
    (next_state c r f).1 = r := by
  unfold next_state
  split
  · rfl
  · split <;> rfl

/-- C3 (corrected) counterexample: with plain auth configured but
start-encryption unsupported (TLS posture unavailable, which is reachable
straight from construction), the advertisement still contains "AUTH PLAIN"
even though the TLS posture is not active. -/
theorem C3_counterexample :
    "AUTH PLAIN" ∈
      (ehlo_response (StateMachine.new 0 [AuthMechanism.plain] false)).message.dynamicTail ∧
    (StateMachine.new 0 [AuthMechanism.plain] false).tls ≠ TlsState.active := by decide

/-- C3 (amended): the successful-EHLO advertisement is the dynamic 250
response of ehlo_response; it always contains "8BITMIME", contains
"STARTTLS" exactly when the TLS posture is inactive, and contains
"AUTH PLAIN" exactly when the TLS posture is not inactive (active or
unavailable) and Plain is among the configured mechanisms. -/
theorem C3_ehlo_advertisement (fsm : StateMachine) (current : SState) (h : Handler)
    (d : List UInt8) :
    (ehlo_response fsm).code = 250 ∧
    "8BITMIME" ∈ (ehlo_response fsm).message.dynamicTail ∧
    ("STARTTLS" ∈ (ehlo_response fsm).message.dynamicTail ↔ fsm.tls = TlsState.inactive) ∧
    ("AUTH PLAIN" ∈ (ehlo_response fsm).message.dynamicTail ↔
      (fsm.tls ≠ TlsState.inactive ∧ AuthMechanism.plain ∈ fsm.auth_mechanisms)) ∧
    ((h.helo fsm.ip d).code = 250 → (handle_ehlo current fsm h d).1 = ehlo_response fsm) := by
  obtain ⟨ip, ams, as0, tls, smtp, ap⟩ := fsm
  refine ⟨rfl, ?_, ?_, ?_, ?_⟩
  · cases tls <;> simp +decide [ehlo_response, Message.dynamicTail, Response.dynamic]
  · cases tls <;>
      simp +decide [ehlo_response, Message.dynamicTail, Response.dynamic, extension_plain]
  · cases tls <;> cases ams with
    | nil => simp +decide [ehlo_response, Message.dynamicTail, Response.dynamic]
    | cons m rest =>
      cases m
      simp +decide [ehlo_response, Message.dynamicTail, Response.dynamic, extension_plain]
  · intro hcode
    cases as0 <;> simp [handle_ehlo, hcode, next_state_fst]

/-- C3 witness: a successful EHLO callback response is replaced by the
advertisement at a concrete machine. -/
theorem C3_witness :
    (handle_ehlo SState.idle (StateMachine.new 0 [] true) defaultHandler (ascii ("a"))).1 =
      ehlo_response (StateMachine.new 0 [] true) :=
  (C3_ehlo_advertisement (StateMachine.new 0 [] true) SState.idle defaultHandler
    (ascii ("a"))).2.2.2.2 (by decide)

/-- Helper: splitting a NUL-free byte list yields just that list. -/
theorem splitOnNul_no_nul (a : List UInt8) (ha : (0 : UInt8) ∉ a) : splitOnNul a = [a] := by
  induction a with
  | nil => rfl
  | cons x xs ih =>
    have hx : x ≠ 0 := fun hx0 => ha (hx0 ▸ List.mem_cons_self x xs)
    have hxs : (0 : UInt8) ∉ xs := fun hmem => ha (List.mem_cons_of_mem x hmem)
    simp [splitOnNul, hx, ih hxs]

/-- Helper: splitting peels off a NUL-free segment before a NUL byte. -/
theorem splitOnNul_append (a rest : List UInt8) (ha : (0 : UInt8) ∉ a) :
    splitOnNul (a ++ 0 :: rest) = a :: splitOnNul rest := by
  induction a with
  | nil => simp [splitOnNul]
  | cons x xs ih =>
    have hx : x ≠ 0 := fun hx0 => ha (hx0 ▸ List.mem_cons_self x xs)
    have hxs : (0 : UInt8) ∉ xs := fun hmem => ha (List.mem_cons_of_mem x hmem)
    simp [splitOnNul, hx, ih hxs]

/-- C8 (corrected) counterexample: the valid base64 input `/w==` decodes to
the single byte 0xFF, whose first NUL-separated field is the nonempty
`[0xFF]`; yet the decoder returns an empty authorization-id, because the
field is not valid UTF-8 — contradicting the claim that the decoded bytes
are split into the three fields as they stand. -/
theorem C8_counterexample :
    base64decode (ascii ("/w==")) = some [255] ∧
    splitOnNul [255] = [[255]] ∧
    (decode_sasl_plain (ascii ("/w=="))).authorization_id = [] ∧
    ([255] : List UInt8) ≠ [] := by decide

/-- C8 (amended): for valid base64 input the decoded bytes are split on NUL
into authorization-id, authentication-id and password in that order, each
field interpreted as UTF-8 — a field that is missing or not valid UTF-8
becomes the empty string; invalid base64 yields three empty strings. -/
theorem C8_sasl_decode (p bytes a b c : List UInt8) :
    (base64decode p = none → decode_sasl_plain p = ⟨[], [], []⟩) ∧
    (base64decode p = some bytes →
      (0 : UInt8) ∉ a → (0 : UInt8) ∉ b → (0 : UInt8) ∉ c →
      ((bytes = a →
        decode_sasl_plain p = ⟨(if utf8Valid a then a else []), [], []⟩) ∧
      (bytes = a ++ 0 :: b →
        decode_sasl_plain p =
          ⟨(if utf8Valid a then a else []), (if utf8Valid b then b else []), []⟩) ∧
      (bytes = a ++ 0 :: (b ++ 0 :: c) →
        decode_sasl_plain p =
          ⟨(if utf8Valid a then a else []), (if utf8Valid b then b else []),
            (if utf8Valid c then c else [])⟩))) := by
  constructor
  · intro hnone
    simp [decode_sasl_plain, hnone]
  · intro hsome ha hb hc
    refine ⟨?_, ?_, ?_⟩
    · intro hbytes
      rw [hbytes] at hsome
      simp [decode_sasl_plain, hsome, splitOnNul_no_nul a ha, next_string]
    · intro hbytes
      rw [hbytes] at hsome
      simp [decode_sasl_plain, hsome, splitOnNul_append a b ha, splitOnNul_no_nul b hb,
        next_string]
    · intro hbytes
      rw [hbytes] at hsome
      simp [decode_sasl_plain, hsome, splitOnNul_append a (b ++ 0 :: c) ha,
        splitOnNul_append b c hb, splitOnNul_no_nul c hc, next_string]

/-- C8 witness: the three-field decode at the concrete token used by the
repository's own tests. -/
theorem C8_witness :
    decode_sasl_plain (ascii ("dGVzdAB0ZXN0ADEyMzQ=")) =
      ⟨(if utf8Valid (ascii ("test")) then ascii ("test") else []),
        (if utf8Valid (ascii ("test")) then ascii ("test") else []),
        (if utf8Valid (ascii ("1234")) then ascii ("1234") else [])⟩ :=
  (((C8_sasl_decode (ascii ("dGVzdAB0ZXN0ADEyMzQ="))
      (ascii ("test") ++ 0 :: (ascii ("test") ++ 0 :: ascii ("1234")))
      (ascii ("test")) (ascii ("test")) (ascii ("1234"))).2
    (by decide) (by decide) (by decide) (by decide)).2.2) (by decide)

end Mailin
